import Mathlib

/-!
# Storefront client script (`static/js/main.js`)

A shallow embedding of the client-side script of the storefront: the compare
list kept in `localStorage`, the toast notifications, the form validators
(two regular expressions), the quantity stepper, the filter URL builder and
the response handlers of the asynchronous requests.

Browser state the script reads or writes is made explicit in the record
`Page`; every script function becomes a function `Page → Page`.  Library
functions of the platform (`JSON.stringify`, `parseInt`, `RegExp.test`,
`URLSearchParams`, `encodeURIComponent`) are embedded following their
ECMAScript / WHATWG definitions, restricted to the values the script passes.
-/

namespace MainJs

/-! ## Product identifiers and their JSON text -/

/-- A product identifier as the script receives it: a JavaScript primitive,
either an integral number (in the range where numbers are exact and print in
plain decimal) or a string.  On these values `Array.includes` (SameValueZero)
and `!==` (strict inequality) agree with structural equality. -/
inductive ProductId where
  | num (n : Int)
  | str (s : String)
  deriving DecidableEq, Repr

/-- One lower-case hexadecimal digit. -/
def hexDigitLower (n : Nat) : Char :=
  if n < 10 then Char.ofNat (48 + n) else Char.ofNat (87 + n)

/-- The escape `\uXXXX` of a code unit below 0x10000. -/
def unicodeEscape (n : Nat) : List Char :=
  [Char.ofNat 92, 'u', hexDigitLower (n / 4096 % 16), hexDigitLower (n / 256 % 16),
    hexDigitLower (n / 16 % 16), hexDigitLower (n % 16)]

/-- The text `QuoteJSONString` produces for one character. -/
def quoteJSONChar (c : Char) : List Char :=
  if c.toNat = 8 then [Char.ofNat 92, 'b']
  else if c.toNat = 9 then [Char.ofNat 92, 't']
  else if c.toNat = 10 then [Char.ofNat 92, 'n']
  else if c.toNat = 12 then [Char.ofNat 92, 'f']
  else if c.toNat = 13 then [Char.ofNat 92, 'r']
  else if c.toNat = 34 then [Char.ofNat 92, Char.ofNat 34]
  else if c.toNat = 92 then [Char.ofNat 92, Char.ofNat 92]
  else if c.toNat < 32 then unicodeEscape c.toNat
  else [c]

/-- The operation `QuoteJSONString`: the string between double quotes, escaped. -/
def quoteJSONString (s : String) : String :=
  String.mk (Char.ofNat 34 :: (s.toList.flatMap quoteJSONChar ++ [Char.ofNat 34]))

/-- The text `JSON.stringify` gives for one identifier. -/
def ProductId.toJSON : ProductId → String
  | .num n => toString n
  | .str s => quoteJSONString s

/-- The call `JSON.stringify(compareList)`: the elements separated by commas, between
square brackets (no indentation argument is passed). -/
def JSON_stringify (l : List ProductId) : String :=
  "[" ++ ",".intercalate (l.map ProductId.toJSON) ++ "]"

/-! ## The page state -/

/-- A toast element appended to `#toastContainer`. -/
structure Toast where
  message : String
  severity : String
  bgClass : String
  icon : String
  deriving DecidableEq, Repr

/-- The callback handed to `setTimeout`.  The script has one, written twice
(lines 51-53 and 133-135): the function that assigns
`'/user/login?redirect=' + encodeURIComponent(window.location.pathname)` to
`window.location.href`, reading the path when it runs. -/
inductive Callback where
  | loginRedirect
  deriving DecidableEq, Repr

/-- The mutating requests of the script. -/
inductive Request where
  | addToCart
  | updateCartItem
  | removeCartItem
  | toggleWishlist
  | removeFromWishlist
  | applyVoucher
  | removeVoucher
  | newsletterSubscribe
  deriving DecidableEq, Repr

/-- An observable action of the script on the browser, recorded in order. -/
inductive Effect where
  /-- one toast element appended to the container and shown -/
  | toast (t : Toast)
  /-- a call `localStorage.setItem(key, value)` -/
  | setItem (key value : String)
  /-- a call `$(selector).text(text)` -/
  | setText (selector text : String)
  /-- a call `setTimeout(callback, delay)`, delay in milliseconds -/
  | setTimeout (callback : Callback) (delay : Nat)
  /-- an assignment to `window.location.href` -/
  | setHref (href : String)
  /-- a call `location.reload()` -/
  | reload
  /-- a request sent with `$.ajax` or `$.post`: which one, and its URL -/
  | ajax (request : Request) (url : String)
  deriving DecidableEq, Repr

/-- Browser state the script touches. -/
structure Page where
  /-- the global `compareList` -/
  compareList : List ProductId := []
  /-- the content of `localStorage`, as key/value pairs -/
  localStorage : List (String × String) := []
  /-- whether `#toastContainer` exists in the document -/
  toastContainer : Bool := false
  /-- the value of `window.location.pathname` -/
  pathname : String := "/"
  /-- the value of `window.location.search` -/
  search : String := ""
  /-- everything the script has done so far, oldest first -/
  log : List Effect := []
  deriving DecidableEq, Repr

/-- The result of `localStorage.getItem(key)`; `none` stands for `null`. -/
def getItem (store : List (String × String)) (key : String) : Option String :=
  match store with
  | [] => none
  | (k, v) :: rest => if k = key then some v else getItem rest key

/-- The store after `localStorage.setItem(key, value)`. -/
def setItem (store : List (String × String)) (key value : String) : List (String × String) :=
  match store with
  | [] => [(key, value)]
  | (k, v) :: rest => if k = key then (k, value) :: rest else (k, v) :: setItem rest key value

/-- Record one effect. -/
def Page.emit (p : Page) (e : Effect) : Page :=
  { p with log := p.log ++ [e] }

/-- The call `localStorage.setItem(key, value)` on the page. -/
def Page.storageSet (p : Page) (key value : String) : Page :=
  { p with localStorage := setItem p.localStorage key value,
           log := p.log ++ [Effect.setItem key value] }

/-- The toasts shown so far, oldest first. -/
def Page.toasts (p : Page) : List Toast :=
  p.log.filterMap (fun e => match e with | Effect.toast t => some t | _ => none)

/-- The `localStorage.setItem` calls made so far, oldest first. -/
def Page.setItemCalls (p : Page) : List (String × String) :=
  p.log.filterMap (fun e => match e with | Effect.setItem k v => some (k, v) | _ => none)

/-- The timers registered so far, oldest first. -/
def Page.timers (p : Page) : List (Callback × Nat) :=
  p.log.filterMap (fun e => match e with | Effect.setTimeout c d => some (c, d) | _ => none)

/-- The values assigned to `window.location.href` so far, oldest first. -/
def Page.navigations (p : Page) : List String :=
  p.log.filterMap (fun e => match e with | Effect.setHref h => some h | _ => none)

/-! ## Notifications (lines 170-214) -/

/-- The lookup of the style class, `bgClass`, with its fallback `'bg-info'`. -/
def bgClassOf (type : String) : String :=
  if type = "success" then "bg-success"
  else if type = "error" then "bg-danger"
  else if type = "warning" then "bg-warning"
  else if type = "info" then "bg-info"
  else "bg-info"

/-- The lookup of the icon class, `icon`, with its fallback `'fa-info-circle'`. -/
def iconOf (type : String) : String :=
  if type = "success" then "fa-check-circle"
  else if type = "error" then "fa-exclamation-circle"
  else if type = "warning" then "fa-exclamation-triangle"
  else if type = "info" then "fa-info-circle"
  else "fa-info-circle"

/-- Script function `showNotification(message, type)`: creates the container
when missing and appends one toast. -/
def showNotification (message : String) (type : String) (p : Page) : Page :=
  { p with toastContainer := true,
           log := p.log ++ [Effect.toast ⟨message, type, bgClassOf type, iconOf type⟩] }

/-! ## Compare list (lines 260-285) -/

/-- Script function `updateCompareCount()`. -/
def updateCompareCount (p : Page) : Page :=
  p.emit (Effect.setText "#compareCount" (toString p.compareList.length))

/-- Script function `addToCompare(productId)`. -/
def addToCompare (productId : ProductId) (p : Page) : Page :=
  if p.compareList.length ≥ 4 then
    showNotification "Chỉ có thể so sánh tối đa 4 sản phẩm!" "warning" p
  else if ¬ p.compareList.contains productId then
    let p1 := { p with compareList := p.compareList ++ [productId] }
    let p2 := p1.storageSet "compareList" (JSON_stringify p1.compareList)
    let p3 := showNotification "Đã thêm vào danh sách so sánh!" "success" p2
    updateCompareCount p3
  else p

/-- Script function `removeFromCompare(productId)`. -/
def removeFromCompare (productId : ProductId) (p : Page) : Page :=
  let p1 := { p with compareList := p.compareList.filter (fun id => id ≠ productId) }
  let p2 := p1.storageSet "compareList" (JSON_stringify p1.compareList)
  updateCompareCount p2

/-! ## Regular expressions (lines 311-319)

The two patterns of the script are anchored at both ends (`^…$`, no flags), so
`re.test(s)` holds exactly when the whole of `s` belongs to the language of
the pattern between the anchors.  Both patterns consume code units one at a
time through character classes; a character outside the Basic Multilingual
Plane is two code units, neither of which is white space, `@`, `.` or a
digit, so matching character by character decides the same strings. -/

/-- The regular expressions needed for the two patterns and their derivatives. -/
inductive RegExp where
  /-- matches no string -/
  | never
  /-- matches the empty string -/
  | empty
  /-- one character of a class, as `[0-9]`, `[^\s@]` or a literal -/
  | cls (p : Char → Bool)
  /-- one pattern followed by another -/
  | seq (a b : RegExp)
  /-- either of two patterns -/
  | alt (a b : RegExp)
  /-- the quantifier `*` -/
  | star (a : RegExp)

namespace RegExp

/-- A literal character of a pattern. -/
def chr (c : Char) : RegExp := cls (fun x => x == c)

/-- The quantifier `+`. -/
def plus (r : RegExp) : RegExp := seq r (star r)

/-- The quantifier `{n}`. -/
def times : Nat → RegExp → RegExp
  | 0, _ => empty
  | n + 1, r => seq r (times n r)

/-- Whether the pattern matches the empty string. -/
def nullable : RegExp → Bool
  | never => false
  | empty => true
  | cls _ => false
  | seq a b => a.nullable && b.nullable
  | alt a b => a.nullable || b.nullable
  | star _ => true

/-- The pattern matching what is left after reading `c`. -/
def deriv (c : Char) : RegExp → RegExp
  | never => never
  | empty => never
  | cls p => if p c then empty else never
  | seq a b => if a.nullable then alt (seq (a.deriv c) b) (b.deriv c) else seq (a.deriv c) b
  | alt a b => alt (a.deriv c) (b.deriv c)
  | star a => seq (a.deriv c) (star a)

/-- Whether the pattern matches the whole list of characters. -/
def rmatch (r : RegExp) : List Char → Bool
  | [] => r.nullable
  | c :: cs => (r.deriv c).rmatch cs

/-- The method `test` of a pattern anchored with `^` and `$`. -/
def test (r : RegExp) (s : String) : Bool := r.rmatch s.toList

/-- The language of a pattern: `Matches r s` says that `r` matches the whole
of `s`. -/
inductive Matches : RegExp → List Char → Prop where
  | empty : Matches empty []
  | cls (p : Char → Bool) (c : Char) : p c = true → Matches (cls p) [c]
  | seq (a b : RegExp) (s t : List Char) : Matches a s → Matches b t → Matches (seq a b) (s ++ t)
  | altLeft (a b : RegExp) (s : List Char) : Matches a s → Matches (alt a b) s
  | altRight (a b : RegExp) (s : List Char) : Matches b s → Matches (alt a b) s
  | starNil (a : RegExp) : Matches (star a) []
  | starCons (a : RegExp) (s t : List Char) : Matches a s → Matches (star a) t →
      Matches (star a) (s ++ t)

end RegExp

/-- The class `\s` (also the white space `parseInt` skips): the ECMAScript
WhiteSpace and LineTerminator code points. -/
def isWhiteSpace (c : Char) : Bool :=
  let n := c.toNat
  n == 9 || n == 10 || n == 11 || n == 12 || n == 13 || n == 32 || n == 160 ||
  n == 5760 || (8192 ≤ n && n ≤ 8202) || n == 8232 || n == 8233 || n == 8239 ||
  n == 8287 || n == 12288 || n == 65279

/-- The class `[0-9]`. -/
def isDigit09 (c : Char) : Bool := 48 ≤ c.toNat && c.toNat ≤ 57

/-- The class `[^\s@]`. -/
def notSpaceNorAt (c : Char) : Bool := !(isWhiteSpace c || c == '@')

/-- The pattern `/^[^\s@]+@[^\s@]+\.[^\s@]+$/` between its anchors. -/
def emailRe : RegExp :=
  .seq (.plus (.cls notSpaceNorAt))
    (.seq (.chr '@') (.seq (.plus (.cls notSpaceNorAt)) (.seq (.chr '.') (.plus (.cls notSpaceNorAt)))))

/-- The pattern `/^0[0-9]{9}$/` between its anchors. -/
def phoneRe : RegExp :=
  .seq (.chr '0') (.times 9 (.cls isDigit09))

/-- Script function `validateEmail(email)`. -/
def validateEmail (email : String) : Bool := emailRe.test email

/-- Script function `validatePhone(phone)`. -/
def validatePhone (phone : String) : Bool := phoneRe.test phone

/-! ## `parseInt` and the quantity stepper (lines 292-308)

Numbers are exact integers here; `none` stands for `NaN`.  The sign of a zero
is not kept: `-0` and `0` behave alike in every comparison and sum the
handlers make, and both are falsy. -/

/-- The value of a character as a digit, 36 when it is none. -/
def digitValue (c : Char) : Nat :=
  let n := c.toNat
  if 48 ≤ n ∧ n ≤ 57 then n - 48
  else if 97 ≤ n ∧ n ≤ 122 then n - 87
  else if 65 ≤ n ∧ n ≤ 90 then n - 55
  else 36

/-- The longest run of radix-`r` digits at the start of the text. -/
def leadingDigits (r : Nat) : List Char → List Nat
  | [] => []
  | c :: cs => if digitValue c < r then digitValue c :: leadingDigits r cs else []

/-- The number written by a list of digits, most significant first. -/
def digitsValue (r : Nat) (ds : List Nat) : Nat :=
  ds.foldl (fun acc d => acc * r + d) 0

/-- The function `parseInt(string)` called without a radix. -/
def parseInt (s : String) : Option Int :=
  let s1 := s.toList.dropWhile isWhiteSpace
  let negative := s1.head? == some '-'
  let s2 := if s1.head? == some '-' ∨ s1.head? == some '+' then s1.tail else s1
  let hex := match s2 with
    | '0' :: 'x' :: _ => true
    | '0' :: 'X' :: _ => true
    | _ => false
  let radix := if hex then 16 else 10
  let s3 := if hex then s2.drop 2 else s2
  let ds := leadingDigits radix s3
  if ds = [] then none
  else if negative then some (-(digitsValue radix ds : Int))
  else some (digitsValue radix ds : Int)

/-- The quantity input next to the stepper buttons. -/
structure QtyInput where
  /-- the current value of the input -/
  value : String
  /-- the attribute `max`, `none` when the attribute is not there -/
  max : Option String := none
  /-- how many `change` events have been triggered -/
  changes : Nat := 0
  deriving DecidableEq, Repr

/-- What `$input.attr(name)` gives `parseInt`: the text, or `undefined`,
which `parseInt` turns into the string "undefined". -/
def attrText (a : Option String) : String := a.getD "undefined"

/-- The expression `parseInt($input.attr('max')) || 999`: the alternative is
taken when the left side is `NaN` or zero. -/
def qtyMax (i : QtyInput) : Int :=
  match parseInt (attrText i.max) with
  | none => 999
  | some m => if m = 0 then 999 else m

/-- The click handler of `.qty-decrease`. -/
def qtyDecrease (i : QtyInput) : QtyInput :=
  match parseInt i.value with
  | none => i
  | some currentVal =>
    if currentVal > 1 then
      { i with value := toString (currentVal - 1), changes := i.changes + 1 }
    else i

/-- The click handler of `.qty-increase`. -/
def qtyIncrease (i : QtyInput) : QtyInput :=
  match parseInt i.value with
  | none => i
  | some currentVal =>
    if currentVal < qtyMax i then
      { i with value := toString (currentVal + 1), changes := i.changes + 1 }
    else i

/-! ## Percent-encoding, UTF-8 and `URLSearchParams`

Bytes are natural numbers below 256. -/

/-- The UTF-8 bytes of one character. -/
def utf8EncodeChar (c : Char) : List Nat :=
  let n := c.toNat
  if n < 128 then [n]
  else if n < 2048 then [192 + n / 64, 128 + n % 64]
  else if n < 65536 then [224 + n / 4096, 128 + n / 64 % 64, 128 + n % 64]
  else [240 + n / 262144, 128 + n / 4096 % 64, 128 + n / 64 % 64, 128 + n % 64]

/-- The UTF-8 bytes of a text. -/
def utf8Encode (s : List Char) : List Nat := s.flatMap utf8EncodeChar

/-- The state of the WHATWG UTF-8 decoder. -/
structure Utf8Decoder where
  codePoint : Nat := 0
  bytesSeen : Nat := 0
  bytesNeeded : Nat := 0
  lower : Nat := 128
  upper : Nat := 191
  deriving DecidableEq, Repr

/-- The decoder reading a byte while it needs none: the character it emits,
if any, and its next state. -/
def utf8Lead (b : Nat) : Option Char × Utf8Decoder :=
  if b ≤ 127 then (some (Char.ofNat b), {})
  else if 194 ≤ b ∧ b ≤ 223 then (none, { bytesNeeded := 1, codePoint := b % 32 })
  else if 224 ≤ b ∧ b ≤ 239 then
    (none, { bytesNeeded := 2, codePoint := b % 16,
             lower := if b = 224 then 160 else 128, upper := if b = 237 then 159 else 191 })
  else if 240 ≤ b ∧ b ≤ 244 then
    (none, { bytesNeeded := 3, codePoint := b % 8,
             lower := if b = 240 then 144 else 128, upper := if b = 244 then 143 else 191 })
  else (some (Char.ofNat 65533), {})

/-- The WHATWG "UTF-8 decode without BOM": malformed input becomes U+FFFD. -/
def utf8Decode (st : Utf8Decoder) : List Nat → List Char
  | [] => if st.bytesNeeded = 0 then [] else [Char.ofNat 65533]
  | b :: rest =>
    if st.bytesNeeded = 0 then
      (utf8Lead b).1.toList ++ utf8Decode (utf8Lead b).2 rest
    else if b < st.lower ∨ st.upper < b then
      Char.ofNat 65533 :: ((utf8Lead b).1.toList ++ utf8Decode (utf8Lead b).2 rest)
    else if st.bytesSeen + 1 = st.bytesNeeded then
      Char.ofNat (st.codePoint * 64 + b % 64) :: utf8Decode {} rest
    else
      utf8Decode { st with codePoint := st.codePoint * 64 + b % 64,
                           bytesSeen := st.bytesSeen + 1, lower := 128, upper := 191 } rest

/-- One upper-case hexadecimal digit. -/
def hexDigitUpper (n : Nat) : Char :=
  if n < 10 then Char.ofNat (48 + n) else Char.ofNat (55 + n)

/-- The escape `%XX` of a byte. -/
def percentEncodeByte (b : Nat) : List Char :=
  ['%', hexDigitUpper (b / 16), hexDigitUpper (b % 16)]

/-- ASCII letters and digits. -/
def isAsciiAlnum (b : Nat) : Bool :=
  (48 ≤ b && b ≤ 57) || (65 ≤ b && b ≤ 90) || (97 ≤ b && b ≤ 122)

/-- Bytes `encodeURIComponent` leaves as they are: letters, digits and
the marks - _ . ! ~ * ' ( ). -/
def isUriUnreserved (b : Nat) : Bool :=
  isAsciiAlnum b || b == 45 || b == 95 || b == 46 || b == 33 || b == 126 || b == 42 ||
  b == 39 || b == 40 || b == 41

/-- The function `encodeURIComponent(s)`. -/
def encodeURIComponent (s : String) : String :=
  String.mk ((utf8Encode s.toList).flatMap
    (fun b => if isUriUnreserved b then [Char.ofNat b] else percentEncodeByte b))

/-- Bytes the form serializer leaves as they are: letters, digits, `*`, `-`,
`.` and `_`. -/
def isFormSafe (b : Nat) : Bool :=
  isAsciiAlnum b || b == 42 || b == 45 || b == 46 || b == 95

/-- The form serializer on one name or value: a space becomes `+`, every other
byte outside the safe set is escaped. -/
def formEncode (s : String) : String :=
  String.mk ((utf8Encode s.toList).flatMap
    (fun b => if b = 32 then ['+'] else if isFormSafe b then [Char.ofNat b]
              else percentEncodeByte b))

/-- The list of name/value pairs held by a `URLSearchParams` object. -/
abbrev URLSearchParams := List (String × String)

/-- The method `toString()`: the pairs as `name=value`, joined with `&`. -/
def URLSearchParams.toString (ps : URLSearchParams) : String :=
  "&".intercalate (ps.map (fun nv => formEncode nv.1 ++ "=" ++ formEncode nv.2))

/-- The method `get(name)`: the value of the first pair with that name;
`none` stands for `null`. -/
def URLSearchParams.get (ps : URLSearchParams) (name : String) : Option String :=
  match ps with
  | [] => none
  | (n, v) :: rest => if n = name then some v else URLSearchParams.get rest name

/-- The method `append(name, value)`. -/
def URLSearchParams.append (ps : URLSearchParams) (name value : String) : URLSearchParams :=
  ps ++ [(name, value)]

/-- The pieces of a byte sequence between occurrences of a separator. -/
def splitBytes (sep : Nat) : List Nat → List (List Nat)
  | [] => [[]]
  | b :: rest =>
    if b = sep then [] :: splitBytes sep rest
    else match splitBytes sep rest with
      | [] => [[b]]
      | piece :: pieces => (b :: piece) :: pieces

/-- The value of a hexadecimal digit byte. -/
def hexValue (b : Nat) : Option Nat :=
  if 48 ≤ b ∧ b ≤ 57 then some (b - 48)
  else if 65 ≤ b ∧ b ≤ 70 then some (b - 55)
  else if 97 ≤ b ∧ b ≤ 102 then some (b - 87)
  else none

/-- The WHATWG percent-decode of a byte sequence, with `skip` bytes still to
pass over (the two digits of an escape just decoded). -/
def percentDecodeFrom (skip : Nat) : List Nat → List Nat
  | [] => []
  | b :: tail =>
    if skip ≠ 0 then percentDecodeFrom (skip - 1) tail
    else if b = 37 then
      match tail with
      | h :: l :: _ =>
        match hexValue h, hexValue l with
        | some x, some y => (16 * x + y) :: percentDecodeFrom 2 tail
        | _, _ => 37 :: percentDecodeFrom 0 tail
      | _ => 37 :: percentDecodeFrom 0 tail
    else b :: percentDecodeFrom 0 tail

/-- The WHATWG percent-decode of a byte sequence. -/
def percentDecode (bytes : List Nat) : List Nat := percentDecodeFrom 0 bytes

/-- One name or value of a query: `+` becomes a space, escapes are decoded,
the bytes are read as UTF-8. -/
def formDecode (bytes : List Nat) : String :=
  String.mk (utf8Decode {} (percentDecode (bytes.map (fun b => if b = 43 then 32 else b))))

/-- The WHATWG `application/x-www-form-urlencoded` parser. -/
def parseUrlencoded (input : List Nat) : URLSearchParams :=
  (splitBytes 38 input).filterMap (fun piece =>
    if piece = [] then none
    else some (formDecode (piece.takeWhile (fun b => b ≠ 61)),
               formDecode ((piece.dropWhile (fun b => b ≠ 61)).drop 1)))

/-- The constructor `new URLSearchParams(init)` on a string: one leading `?`
is dropped, the rest is parsed. -/
def URLSearchParams.ofString (init : String) : URLSearchParams :=
  parseUrlencoded (utf8Encode (match init.toList with
    | '?' :: rest => rest
    | cs => cs))

/-! ## Product filters (lines 217-244) -/

/-- What `applyFilters` reads from the form controls. -/
structure FilterForm where
  /-- values of the checked `category` checkboxes, in document order -/
  category : List String := []
  /-- value of `#priceMin`, `none` when there is no such element -/
  priceMin : Option String := none
  /-- value of `#priceMax`, `none` when there is no such element -/
  priceMax : Option String := none
  /-- values of the checked `size` checkboxes, in document order -/
  size : List String := []
  /-- values of the checked `color` checkboxes, in document order -/
  color : List String := []
  /-- value of `#sortSelect`, `none` when nothing is selected -/
  sort : Option String := none
  /-- value of the checked `gender` control, `none` when none is checked -/
  gender : Option String := none
  deriving DecidableEq, Repr

/-- The statement `if (v) params.append(name, v)`: a value is appended when it
is a non-empty string. -/
def appendIfTruthy (ps : URLSearchParams) (name : String) (v : Option String) : URLSearchParams :=
  match v with
  | none => ps
  | some x => if x = "" then ps else ps.append name x

/-- The statement `values.forEach(v => params.append(name, v))`. -/
def appendEach (ps : URLSearchParams) (name : String) (values : List String) : URLSearchParams :=
  values.foldl (fun acc v => acc.append name v) ps

/-- The query built by `applyFilters` (lines 233-241). -/
def filterParams (filters : FilterForm) (keyword : Option String) : URLSearchParams :=
  let params : URLSearchParams := []
  let params := appendIfTruthy params "keyword" keyword
  let params := appendIfTruthy params "gender" filters.gender
  let params := appendEach params "category" filters.category
  let params := appendEach params "size" filters.size
  let params := appendEach params "color" filters.color
  let params := appendIfTruthy params "priceMin" filters.priceMin
  let params := appendIfTruthy params "priceMax" filters.priceMax
  appendIfTruthy params "sort" filters.sort

/-- The pairs a scalar control contributes to the query: none when its value
is missing or empty, else the one pair. -/
def truthyPair (name : String) (v : Option String) : URLSearchParams :=
  match v with
  | none => []
  | some x => if x = "" then [] else [(name, x)]

/-- Script function `applyFilters()`. -/
def applyFilters (filters : FilterForm) (p : Page) : Page :=
  let urlParams := URLSearchParams.ofString p.search
  let keyword := urlParams.get "keyword"
  p.emit (Effect.setHref ("/products?" ++ (filterParams filters keyword).toString))

/-! ## Error callbacks of the requests

A request that fails calls its `error` callback (or `.fail` callback) when it
has one; `status` is `xhr.status`. -/

/-- What happens when a timer fires: its callback runs on the page as it is
then. -/
def Callback.run (c : Callback) (p : Page) : Page :=
  match c with
  | Callback.loginRedirect =>
    p.emit (Effect.setHref ("/user/login?redirect=" ++ encodeURIComponent p.pathname))

/-- Script function `addToCart(productId, quantity, size, color)` up to the
point where the request is sent (lines 27-36). -/
def addToCart (_productId : ProductId) (_quantity : Int) (_size _color : Option String)
    (p : Page) : Page :=
  p.emit (Effect.ajax Request.addToCart "/cart/api/add")

/-- The callback `error` of `addToCart` (lines 48-57). -/
def addToCart_error (status : Nat) (p : Page) : Page :=
  if status = 401 then
    let p1 := showNotification "Vui lòng đăng nhập để thêm vào giỏ hàng" "warning" p
    p1.emit (Effect.setTimeout Callback.loginRedirect 1500)
  else
    showNotification "Có lỗi xảy ra, vui lòng thử lại!" "error" p

/-- The callback `error` of `updateCartItem` (lines 73-75); it takes no argument. -/
def updateCartItem_error (_status : Nat) (p : Page) : Page :=
  showNotification "Có lỗi xảy ra, vui lòng thử lại!" "error" p

/-- The callback `error` of `removeCartItem` (lines 90-92); it takes no argument. -/
def removeCartItem_error (_status : Nat) (p : Page) : Page :=
  showNotification "Có lỗi xảy ra, vui lòng thử lại!" "error" p

/-- The callback `error` of `toggleWishlist` (lines 130-139). -/
def toggleWishlist_error (status : Nat) (p : Page) : Page :=
  if status = 401 then
    let p1 := showNotification "Vui lòng đăng nhập!" "warning" p
    p1.emit (Effect.setTimeout Callback.loginRedirect 1500)
  else
    showNotification "Có lỗi xảy ra, vui lòng thử lại!" "error" p

/-- The callback `error` of `removeFromWishlist` (lines 154-156); it takes no argument. -/
def removeFromWishlist_error (_status : Nat) (p : Page) : Page :=
  showNotification "Có lỗi xảy ra, vui lòng thử lại!" "error" p

/-- The callback `error` of `applyVoucher` (lines 341-343); it takes no argument. -/
def applyVoucher_error (_status : Nat) (p : Page) : Page :=
  showNotification "Có lỗi xảy ra, vui lòng thử lại!" "error" p

/-- The callback `.fail` of the newsletter subscription (lines 439-441); it
takes no argument. -/
def newsletter_fail (_status : Nat) (p : Page) : Page :=
  showNotification "Có lỗi xảy ra, vui lòng thử lại!" "error" p

/-- The error callback each request registers; `removeVoucher` (lines 347-358)
registers none. -/
def Request.errorCallback : Request → Option (Nat → Page → Page)
  | .addToCart => some addToCart_error
  | .updateCartItem => some updateCartItem_error
  | .removeCartItem => some removeCartItem_error
  | .toggleWishlist => some toggleWishlist_error
  | .removeFromWishlist => some removeFromWishlist_error
  | .applyVoucher => some applyVoucher_error
  | .removeVoucher => none
  | .newsletterSubscribe => some newsletter_fail

/-- The page after the request failed with the given HTTP status. -/
def Request.fail (r : Request) (status : Nat) (p : Page) : Page :=
  match r.errorCallback with
  | some callback => callback status p
  | none => p

/-! ## The matcher decides the language of a pattern -/

namespace RegExp

theorem matches_never (s : List Char) : ¬ Matches never s := by
  intro h; cases h

theorem matches_empty_iff (s : List Char) : Matches empty s ↔ s = [] := by
  constructor
  · intro h; cases h; rfl
  · rintro rfl; exact Matches.empty

theorem matches_cls_iff (p : Char → Bool) (s : List Char) :
    Matches (cls p) s ↔ ∃ c, s = [c] ∧ p c = true := by
  constructor
  · intro h; cases h with
    | cls _ c hc => exact ⟨c, rfl, hc⟩
  · rintro ⟨c, rfl, hc⟩; exact Matches.cls p c hc

theorem matches_seq_iff (a b : RegExp) (s : List Char) :
    Matches (seq a b) s ↔ ∃ u v, s = u ++ v ∧ Matches a u ∧ Matches b v := by
  constructor
  · intro h; cases h with
    | seq _ _ u v hu hv => exact ⟨u, v, rfl, hu, hv⟩
  · rintro ⟨u, v, rfl, hu, hv⟩; exact Matches.seq a b u v hu hv

theorem matches_alt_iff (a b : RegExp) (s : List Char) :
    Matches (alt a b) s ↔ Matches a s ∨ Matches b s := by
  constructor
  · intro h; cases h with
    | altLeft _ _ _ h => exact Or.inl h
    | altRight _ _ _ h => exact Or.inr h
  · rintro (h | h)
    · exact Matches.altLeft a b s h
    · exact Matches.altRight a b s h

/-- A non-empty match of `a*` starts with a non-empty match of `a`. -/
theorem matches_star_cons (a : RegExp) (c : Char) (s : List Char) :
    Matches (star a) (c :: s) ↔
      ∃ u v, s = u ++ v ∧ Matches a (c :: u) ∧ Matches (star a) v := by
  constructor
  · intro h
    generalize hr : star a = r at h
    generalize hw : c :: s = w at h
    induction h generalizing s with
    | empty => cases hr
    | cls _ _ _ => cases hr
    | seq _ _ _ _ _ _ _ _ => cases hr
    | altLeft _ _ _ _ _ => cases hr
    | altRight _ _ _ _ _ => cases hr
    | starNil _ => cases hw
    | starCons a' u v hu hv _ ihv =>
      cases hr
      cases u with
      | nil => exact ihv s rfl (by simpa using hw)
      | cons d u' =>
        simp only [List.cons_append, List.cons.injEq] at hw
        obtain ⟨rfl, rfl⟩ := hw
        exact ⟨u', v, rfl, hu, hv⟩
  · rintro ⟨u, v, rfl, hu, hv⟩
    exact Matches.starCons a (c :: u) v hu hv

theorem nullable_iff (r : RegExp) : r.nullable = true ↔ Matches r [] := by
  induction r with
  | never => simp [nullable, matches_never]
  | empty => simp [nullable, matches_empty_iff]
  | cls p => simp [nullable, matches_cls_iff]
  | seq a b iha ihb =>
    simp only [nullable, Bool.and_eq_true, iha, ihb, matches_seq_iff]
    constructor
    · rintro ⟨ha, hb⟩; exact ⟨[], [], rfl, ha, hb⟩
    · rintro ⟨u, v, h, ha, hb⟩
      have h' := h.symm
      simp only [List.append_eq_nil] at h'
      obtain ⟨rfl, rfl⟩ := h'
      exact ⟨ha, hb⟩
  | alt a b iha ihb => simp [nullable, iha, ihb, matches_alt_iff]
  | star a _ => simp [nullable, Matches.starNil]

theorem deriv_iff (c : Char) (r : RegExp) :
    ∀ s, Matches (r.deriv c) s ↔ Matches r (c :: s) := by
  induction r with
  | never => intro s; simp [deriv, matches_never]
  | empty => intro s; simp [deriv, matches_never, matches_empty_iff]
  | cls p =>
    intro s
    by_cases hp : p c = true
    · simp only [deriv, hp, if_true, matches_empty_iff, matches_cls_iff]
      constructor
      · rintro rfl; exact ⟨c, rfl, hp⟩
      · rintro ⟨d, hd, _⟩
        simp only [List.cons.injEq] at hd
        exact hd.2
    · simp only [deriv, hp, matches_cls_iff]
      simp only [Bool.false_eq_true, if_false, matches_never, false_iff]
      rintro ⟨d, hd, hpd⟩
      simp only [List.cons.injEq] at hd
      exact hp (hd.1 ▸ hpd)
  | seq a b iha ihb =>
    intro s
    have key : Matches (seq a b) (c :: s) ↔
        (∃ u v, s = u ++ v ∧ Matches a (c :: u) ∧ Matches b v) ∨
        (Matches a [] ∧ Matches b (c :: s)) := by
      rw [matches_seq_iff]
      constructor
      · rintro ⟨u, v, h, hu, hv⟩
        cases u with
        | nil => right; simp only [List.nil_append] at h; exact ⟨hu, h ▸ hv⟩
        | cons d u' =>
          simp only [List.cons_append, List.cons.injEq] at h
          obtain ⟨rfl, rfl⟩ := h
          exact Or.inl ⟨u', v, rfl, hu, hv⟩
      · rintro (⟨u, v, rfl, hu, hv⟩ | ⟨ha, hb⟩)
        · exact ⟨c :: u, v, rfl, hu, hv⟩
        · exact ⟨[], c :: s, rfl, ha, hb⟩
    rw [key]
    by_cases hn : a.nullable = true
    · simp only [deriv, hn, if_true, matches_alt_iff, matches_seq_iff, iha, ihb]
      have := (nullable_iff a).1 hn
      simp [this]
    · have : ¬ Matches a [] := fun h => hn ((nullable_iff a).2 h)
      simp only [deriv, hn, Bool.false_eq_true, if_false, matches_seq_iff, iha, this,
        false_and, or_false]
  | alt a b iha ihb => intro s; simp [deriv, matches_alt_iff, iha, ihb]
  | star a iha =>
    intro s
    simp only [deriv, matches_seq_iff, iha, matches_star_cons]

theorem rmatch_iff (r : RegExp) (s : List Char) : r.rmatch s = true ↔ Matches r s := by
  induction s generalizing r with
  | nil => simp [rmatch, nullable_iff]
  | cons c cs ih => simp [rmatch, ih, deriv_iff]

/-- The strings matched by `[…]*`. -/
theorem matches_star_cls (p : Char → Bool) (s : List Char) :
    Matches (star (cls p)) s ↔ ∀ c ∈ s, p c = true := by
  induction s with
  | nil => simp [Matches.starNil]
  | cons c cs ih =>
    rw [matches_star_cons]
    constructor
    · rintro ⟨u, v, rfl, hu, hv⟩
      rw [matches_cls_iff] at hu
      obtain ⟨d, hd, hpd⟩ := hu
      simp only [List.cons.injEq] at hd
      obtain ⟨rfl, rfl⟩ := hd
      simp only [List.nil_append] at ih ⊢
      intro x hx
      rcases List.mem_cons.1 hx with rfl | hx
      · exact hpd
      · exact ih.1 hv x hx
    · intro h
      refine ⟨[], cs, rfl, ?_, ?_⟩
      · exact Matches.cls p c (h c (List.mem_cons_self _ _))
      · exact ih.2 (fun x hx => h x (List.mem_cons_of_mem _ hx))

/-- The strings matched by `[…]+`. -/
theorem matches_plus_cls (p : Char → Bool) (s : List Char) :
    Matches (plus (cls p)) s ↔ s ≠ [] ∧ ∀ c ∈ s, p c = true := by
  unfold plus
  rw [matches_seq_iff]
  constructor
  · rintro ⟨u, v, rfl, hu, hv⟩
    rw [matches_cls_iff] at hu
    obtain ⟨d, rfl, hpd⟩ := hu
    rw [matches_star_cls] at hv
    refine ⟨by simp, ?_⟩
    intro x hx
    simp only [List.singleton_append, List.mem_cons] at hx
    rcases hx with rfl | hx
    · exact hpd
    · exact hv x hx
  · rintro ⟨hne, h⟩
    cases s with
    | nil => exact absurd rfl hne
    | cons c cs =>
      refine ⟨[c], cs, rfl, Matches.cls p c (h c (List.mem_cons_self _ _)), ?_⟩
      exact (matches_star_cls p cs).2 (fun x hx => h x (List.mem_cons_of_mem _ hx))

/-- The strings matched by `[…]{n}`. -/
theorem matches_times_cls (p : Char → Bool) (n : Nat) (s : List Char) :
    Matches (times n (cls p)) s ↔ s.length = n ∧ ∀ c ∈ s, p c = true := by
  induction n generalizing s with
  | zero => simp [times, matches_empty_iff, List.length_eq_zero]; rintro rfl; simp
  | succ n ih =>
    simp only [times, matches_seq_iff, matches_cls_iff, ih]
    constructor
    · rintro ⟨u, v, rfl, ⟨d, rfl, hpd⟩, hlen, hv⟩
      refine ⟨by simp [hlen], ?_⟩
      intro x hx
      simp only [List.singleton_append, List.mem_cons] at hx
      rcases hx with rfl | hx
      · exact hpd
      · exact hv x hx
    · rintro ⟨hlen, h⟩
      cases s with
      | nil => simp at hlen
      | cons c cs =>
        refine ⟨[c], cs, rfl, ⟨c, rfl, h c (List.mem_cons_self _ _)⟩, ?_, ?_⟩
        · simpa using hlen
        · exact fun x hx => h x (List.mem_cons_of_mem _ hx)

end RegExp

/-! ## The validators -/

theorem isDigit09_eq (c : Char) : isDigit09 c = c.isDigit := by
  simp only [isDigit09, Char.isDigit, Char.toNat, ge_iff_le, UInt32.le_def, Fin.le_def]
  rfl

theorem chr_iff (d : Char) (s : List Char) :
    RegExp.Matches (RegExp.chr d) s ↔ s = [d] := by
  unfold RegExp.chr
  rw [RegExp.matches_cls_iff]
  constructor
  · rintro ⟨c, rfl, hc⟩
    simp only [beq_iff_eq] at hc
    rw [hc]
  · rintro rfl
    exact ⟨d, rfl, by simp⟩

theorem phone_matches_iff (l : List Char) :
    phoneRe.rmatch l = true ↔
      l.length = 10 ∧ l.head? = some '0' ∧ ∀ c ∈ l.tail, c.isDigit = true := by
  rw [RegExp.rmatch_iff]
  unfold phoneRe
  rw [RegExp.matches_seq_iff]
  constructor
  · rintro ⟨u, v, rfl, hu, hv⟩
    rw [chr_iff] at hu
    rw [RegExp.matches_times_cls] at hv
    subst hu
    refine ⟨by simp [hv.1], rfl, ?_⟩
    intro c hc
    rw [← isDigit09_eq]
    exact hv.2 c (by simpa using hc)
  · rintro ⟨hlen, hhead, hrest⟩
    cases l with
    | nil => simp at hlen
    | cons c cs =>
      simp only [List.head?_cons, Option.some.injEq] at hhead
      subst hhead
      refine ⟨['0'], cs, rfl, (chr_iff _ _).2 rfl, ?_⟩
      rw [RegExp.matches_times_cls]
      refine ⟨by simpa using hlen, ?_⟩
      intro c hc
      rw [isDigit09_eq]
      exact hrest c (by simpa using hc)

/-- C3. `validatePhone(s)` is true exactly when `s` has 10 characters, the
first being `0` and the other nine decimal digits; it accepts "0912345678" and
rejects "12345". -/
theorem validatePhone_spec :
    (∀ s : String, validatePhone s = true ↔
      s.length = 10 ∧ s.toList.head? = some '0' ∧ ∀ c ∈ s.toList.tail, c.isDigit = true) ∧
    validatePhone "0912345678" = true ∧ validatePhone "12345" = false := by
  refine ⟨?_, by decide, by decide⟩
  intro s
  exact phone_matches_iff s.toList

theorem notSpaceNorAt_iff (c : Char) :
    notSpaceNorAt c = true ↔ isWhiteSpace c = false ∧ c ≠ '@' := by
  simp [notSpaceNorAt]

theorem email_matches_iff (l : List Char) :
    emailRe.rmatch l = true ↔
      ∃ a b t, l = a ++ '@' :: (b ++ '.' :: t) ∧
        (a ≠ [] ∧ ∀ c ∈ a, notSpaceNorAt c = true) ∧
        (b ≠ [] ∧ ∀ c ∈ b, notSpaceNorAt c = true) ∧
        (t ≠ [] ∧ ∀ c ∈ t, notSpaceNorAt c = true) := by
  rw [RegExp.rmatch_iff]
  unfold emailRe
  simp only [RegExp.matches_seq_iff, RegExp.matches_plus_cls, chr_iff]
  constructor
  · rintro ⟨a, _, rfl, ha, _, _, rfl, rfl, b, _, rfl, hb, _, t, rfl, rfl, ht⟩
    exact ⟨a, b, t, by simp, ha, hb, ht⟩
  · rintro ⟨a, b, t, rfl, ha, hb, ht⟩
    exact ⟨a, _, rfl, ha, ['@'], _, rfl, rfl, b, _, rfl, hb, ['.'], t, rfl, rfl, ht⟩

theorem count_at_eq_zero (l : List Char) (h : ∀ c ∈ l, notSpaceNorAt c = true) :
    l.count '@' = 0 := by
  rw [List.count_eq_zero]
  intro hmem
  exact ((notSpaceNorAt_iff _).1 (h _ hmem)).2 rfl

/-- C4. `validateEmail(s)` is true exactly when `s` has the shape
`local@domain.tld`: no white space, exactly one `@`, something before it, and
after it a `.` with something on both sides; it accepts "a@b.com" and rejects
"a@b". -/
theorem validateEmail_spec :
    (∀ s : String, validateEmail s = true ↔
      (∀ c ∈ s.toList, isWhiteSpace c = false) ∧ s.toList.count '@' = 1 ∧
      ∃ loc dom, s.toList = loc ++ '@' :: dom ∧ loc ≠ [] ∧
        ∃ b t, dom = b ++ '.' :: t ∧ b ≠ [] ∧ t ≠ []) ∧
    validateEmail "a@b.com" = true ∧ validateEmail "a@b" = false := by
  refine ⟨?_, by decide, by decide⟩
  intro s
  show emailRe.rmatch s.toList = true ↔ _
  rw [email_matches_iff]
  generalize s.toList = l
  constructor
  · rintro ⟨a, b, t, rfl, ⟨ha, hpa⟩, ⟨hb, hpb⟩, ⟨ht, hpt⟩⟩
    refine ⟨?_, ?_, a, b ++ '.' :: t, rfl, ha, b, t, rfl, hb, ht⟩
    · intro c hc
      simp only [List.mem_append, List.mem_cons] at hc
      rcases hc with hc | rfl | hc | rfl | hc
      · exact ((notSpaceNorAt_iff _).1 (hpa c hc)).1
      · decide
      · exact ((notSpaceNorAt_iff _).1 (hpb c hc)).1
      · decide
      · exact ((notSpaceNorAt_iff _).1 (hpt c hc)).1
    · simp only [List.count_append, List.count_cons, count_at_eq_zero a hpa,
        count_at_eq_zero b hpb, count_at_eq_zero t hpt]
      decide
  · rintro ⟨hws, hcount, loc, dom, rfl, hloc, b, t, rfl, hb, ht⟩
    simp only [List.count_append, List.count_cons] at hcount
    have hdot : (('.' : Char) == '@') = false := by decide
    simp only [beq_self_eq_true, if_true, hdot, Bool.false_eq_true, if_false] at hcount
    have h0 : List.count '@' loc = 0 ∧ List.count '@' b = 0 ∧ List.count '@' t = 0 := by omega
    obtain ⟨h1, h2, h3⟩ := h0
    rw [List.count_eq_zero] at h1 h2 h3
    refine ⟨loc, b, t, rfl, ⟨hloc, ?_⟩, ⟨hb, ?_⟩, ⟨ht, ?_⟩⟩
    · intro c hc
      exact (notSpaceNorAt_iff c).2 ⟨hws c (by simp [hc]), fun h => h1 (h ▸ hc)⟩
    · intro c hc
      exact (notSpaceNorAt_iff c).2 ⟨hws c (by simp [hc]), fun h => h2 (h ▸ hc)⟩
    · intro c hc
      exact (notSpaceNorAt_iff c).2 ⟨hws c (by simp [hc]), fun h => h3 (h ▸ hc)⟩

/-! ## The compare list -/

theorem getItem_setItem (store : List (String × String)) (key value : String) :
    getItem (setItem store key value) key = some value := by
  induction store with
  | nil => simp [setItem, getItem]
  | cons kv rest ih =>
    obtain ⟨k, v⟩ := kv
    by_cases h : k = key
    · simp [setItem, getItem, h]
    · simp [setItem, getItem, h, ih]

theorem setItem_setItem (store : List (String × String)) (key v w : String) :
    setItem (setItem store key v) key w = setItem store key w := by
  induction store with
  | nil => simp [setItem]
  | cons kv rest ih =>
    obtain ⟨k, u⟩ := kv
    by_cases h : k = key
    · simp [setItem, h]
    · simp [setItem, h, ih]

/-- The page when the list is full: one warning toast, nothing else. -/
theorem addToCompare_full (id : ProductId) (p : Page) (h : 4 ≤ p.compareList.length) :
    addToCompare id p =
      showNotification "Chỉ có thể so sánh tối đa 4 sản phẩm!" "warning" p := by
  simp [addToCompare, h]

/-- The page when the identifier is already listed and the list is not full. -/
theorem addToCompare_present (id : ProductId) (p : Page) (h : p.compareList.length < 4)
    (hmem : id ∈ p.compareList) : addToCompare id p = p := by
  have h' : ¬ 4 ≤ p.compareList.length := by omega
  simp [addToCompare, h', hmem]

/-- The page when the identifier is appended. -/
theorem addToCompare_fresh (id : ProductId) (p : Page) (h : p.compareList.length < 4)
    (hmem : id ∉ p.compareList) :
    addToCompare id p =
      updateCompareCount (showNotification "Đã thêm vào danh sách so sánh!" "success"
        (Page.storageSet { p with compareList := p.compareList ++ [id] } "compareList"
          (JSON_stringify (p.compareList ++ [id])))) := by
  have h' : ¬ 4 ≤ p.compareList.length := by omega
  simp [addToCompare, h', hmem]

/-- C1. `addToCompare` keeps a list of at most 4 entries at most 4 long, keeps a
duplicate-free list duplicate-free, and when the list already has 4 or more
entries or already holds the identifier it leaves the list and the storage as
they were and calls `localStorage.setItem` not at all. -/
theorem addToCompare_invariants (p : Page) (id : ProductId) :
    (p.compareList.length ≤ 4 → (addToCompare id p).compareList.length ≤ 4) ∧
    (p.compareList.Nodup → (addToCompare id p).compareList.Nodup) ∧
    ((4 ≤ p.compareList.length ∨ id ∈ p.compareList) →
      (addToCompare id p).compareList = p.compareList ∧
      (addToCompare id p).localStorage = p.localStorage ∧
      getItem (addToCompare id p).localStorage "compareList" =
        getItem p.localStorage "compareList" ∧
      (addToCompare id p).setItemCalls = p.setItemCalls) := by
  by_cases hfull : 4 ≤ p.compareList.length
  · rw [addToCompare_full id p hfull]
    simp [showNotification, Page.setItemCalls, List.filterMap_append]
  · have hlt : p.compareList.length < 4 := by omega
    by_cases hmem : id ∈ p.compareList
    · rw [addToCompare_present id p hlt hmem]
      simp
    · rw [addToCompare_fresh id p hlt hmem]
      refine ⟨?_, ?_, ?_⟩
      · intro _
        simp [updateCompareCount, Page.emit, showNotification, Page.storageSet]
        omega
      · intro hnd
        simp only [updateCompareCount, Page.emit, showNotification, Page.storageSet]
        exact List.Nodup.append hnd (List.nodup_singleton id) (by simpa using hmem)
      · rintro (h | h)
        · exact absurd h hfull
        · exact absurd h hmem

/-- A list of three distinct identifiers, a list of four (full), and one
already holding the identifier 2: the three parts of C1 at concrete pages. -/
theorem addToCompare_invariants_witness :
    (addToCompare (.num 4) { compareList := [.num 1, .num 2, .num 3] }).compareList.length ≤ 4 ∧
    (addToCompare (.num 4) { compareList := [.num 1, .num 2, .num 3] }).compareList.Nodup ∧
    (addToCompare (.num 2)
        { compareList := [.num 1, .num 2], localStorage := [("compareList", "[1,2]")] }).localStorage
      = [("compareList", "[1,2]")] :=
  ⟨(addToCompare_invariants { compareList := [.num 1, .num 2, .num 3] } (.num 4)).1 (by decide),
   (addToCompare_invariants { compareList := [.num 1, .num 2, .num 3] } (.num 4)).2.1 (by decide),
   ((addToCompare_invariants
      { compareList := [.num 1, .num 2], localStorage := [("compareList", "[1,2]")] }
      (.num 2)).2.2 (Or.inr (by decide))).2.1⟩

theorem removeFromCompare_list (id : ProductId) (p : Page) :
    (removeFromCompare id p).compareList = p.compareList.filter (fun x => x ≠ id) := by
  simp [removeFromCompare, updateCompareCount, Page.emit, Page.storageSet]

theorem removeFromCompare_storage (id : ProductId) (p : Page) :
    (removeFromCompare id p).localStorage =
      setItem p.localStorage "compareList"
        (JSON_stringify (p.compareList.filter (fun x => x ≠ id))) := by
  simp [removeFromCompare, updateCompareCount, Page.emit, Page.storageSet]

/-- C2. After `removeFromCompare(id)` the list does not hold `id`, the value
stored under `compareList` is the JSON text of that list, and a second call
changes neither the list nor the storage. -/
theorem removeFromCompare_absent_idempotent (p : Page) (id : ProductId) :
    id ∉ (removeFromCompare id p).compareList ∧
    getItem (removeFromCompare id p).localStorage "compareList" =
      some (JSON_stringify (removeFromCompare id p).compareList) ∧
    (removeFromCompare id (removeFromCompare id p)).compareList =
      (removeFromCompare id p).compareList ∧
    (removeFromCompare id (removeFromCompare id p)).localStorage =
      (removeFromCompare id p).localStorage := by
  refine ⟨?_, ?_, ?_, ?_⟩
  · rw [removeFromCompare_list]
    simp [List.mem_filter]
  · rw [removeFromCompare_storage, removeFromCompare_list, getItem_setItem]
  · simp only [removeFromCompare_list, List.filter_filter]
    simp
  · simp only [removeFromCompare_storage, removeFromCompare_list, List.filter_filter,
      setItem_setItem]
    simp

/-- C9 as stated fails: the list holds the identifier 1 and is not full, yet
`addToCompare(1)` shows no notification (it does nothing at all). -/
theorem addToCompare_duplicate_silent :
    (ProductId.num 1) ∈ ({ compareList := [.num 1] } : Page).compareList ∧
    (addToCompare (.num 1) { compareList := [.num 1] }).toasts = [] ∧
    (addToCompare (.num 1) { compareList := [.num 1] }).log = [] := by
  decide

/-- C9, amended. With 4 or more entries `addToCompare` shows exactly one
warning notification and changes neither the list nor the storage; with fewer
than 4 entries, one of them the identifier, it changes nothing and shows no
notification. -/
theorem addToCompare_rejections (p : Page) (id : ProductId) :
    (4 ≤ p.compareList.length →
      (addToCompare id p).log = p.log ++
        [Effect.toast ⟨"Chỉ có thể so sánh tối đa 4 sản phẩm!", "warning", "bg-warning",
          "fa-exclamation-triangle"⟩] ∧
      (addToCompare id p).compareList = p.compareList ∧
      (addToCompare id p).localStorage = p.localStorage) ∧
    (p.compareList.length < 4 → id ∈ p.compareList → addToCompare id p = p) := by
  refine ⟨?_, ?_⟩
  · intro h
    rw [addToCompare_full id p h]
    simp [showNotification, bgClassOf, iconOf]
  · intro h hmem
    exact addToCompare_present id p h hmem

/-- Both rejections at concrete pages. -/
theorem addToCompare_rejections_witness :
    (addToCompare (.num 9)
        { compareList := [.num 1, .num 2, .num 3, .num 4] }).compareList
      = [.num 1, .num 2, .num 3, .num 4] ∧
    addToCompare (.str "a") { compareList := [.str "a"] } = { compareList := [.str "a"] } :=
  ⟨((addToCompare_rejections { compareList := [.num 1, .num 2, .num 3, .num 4] } (.num 9)).1
      (by decide)).2.1,
   (addToCompare_rejections { compareList := [.str "a"] } (.str "a")).2 (by decide) (by decide)⟩

/-- C10. With fewer than 4 entries, none of them `id`, `addToCompare(id)` makes
the list the old one with `id` appended, one longer, and stores the JSON array
text of that new list under `compareList` through one `setItem` call. -/
theorem addToCompare_appends (p : Page) (id : ProductId)
    (hlen : p.compareList.length < 4) (hnew : id ∉ p.compareList) :
    (addToCompare id p).compareList = p.compareList ++ [id] ∧
    (addToCompare id p).compareList.length = p.compareList.length + 1 ∧
    getItem (addToCompare id p).localStorage "compareList" =
      some (JSON_stringify (p.compareList ++ [id])) ∧
    (addToCompare id p).setItemCalls =
      p.setItemCalls ++ [("compareList", JSON_stringify (p.compareList ++ [id]))] := by
  rw [addToCompare_fresh id p hlen hnew]
  simp [updateCompareCount, Page.emit, showNotification, Page.storageSet, getItem_setItem,
    Page.setItemCalls, List.filterMap_append]

/-- Adding 3 to the stored list `[1,"a"]` stores the text `[1,"a",3]`. -/
theorem addToCompare_appends_witness :
    getItem (addToCompare (.num 3)
        { compareList := [.num 1, .str "a"],
          localStorage := [("compareList", "[1,\"a\"]")] }).localStorage "compareList"
      = some "[1,\"a\",3]" :=
  ((addToCompare_appends
      { compareList := [.num 1, .str "a"], localStorage := [("compareList", "[1,\"a\"]")] }
      (.num 3) (by decide) (by decide)).2.2.1).trans (by decide)

/-! ## The quantity stepper and the filter query -/

/-- The decrease handler either leaves the input alone or writes a number that
is at least 1. -/
theorem qtyDecrease_ge_one (i : QtyInput) :
    qtyDecrease i = i ∨
      ∃ v : Int, 1 ≤ v ∧ qtyDecrease i = { i with value := toString v, changes := i.changes + 1 } := by
  unfold qtyDecrease
  cases h : parseInt i.value with
  | none => exact Or.inl rfl
  | some w =>
    by_cases hw : w > 1
    · right
      refine ⟨w - 1, by omega, ?_⟩
      simp [hw]
    · left
      simp [hw]

/-- The increase handler either leaves the input alone or writes a number that
is at most the bound `qtyMax` it computed. -/
theorem qtyIncrease_le_qtyMax (i : QtyInput) :
    qtyIncrease i = i ∨
      ∃ v : Int, v ≤ qtyMax i ∧
        qtyIncrease i = { i with value := toString v, changes := i.changes + 1 } := by
  unfold qtyIncrease
  cases h : parseInt i.value with
  | none => exact Or.inl rfl
  | some w =>
    by_cases hw : w < qtyMax i
    · right
      refine ⟨w + 1, by omega, ?_⟩
      simp [hw]
    · left
      simp [hw]

/-- The bound is the attribute's number when that number is not zero, and 999
when the attribute is missing or does not start with a number. -/
theorem qtyMax_cases (i : QtyInput) :
    (i.max = none → qtyMax i = 999) ∧
    (∀ m : Int, parseInt (attrText i.max) = some m → m ≠ 0 → qtyMax i = m) ∧
    (parseInt (attrText i.max) = some 0 → qtyMax i = 999) := by
  refine ⟨?_, ?_, ?_⟩
  · intro h
    have : parseInt "undefined" = none := by decide
    simp [qtyMax, attrText, h, this]
  · intro m hm hne
    simp [qtyMax, hm, hne]
  · intro hm
    simp [qtyMax, hm]

/-- C5 fails on the code: with the attribute `max="0"` and the value 1, a click
on the increase control writes 2, above the configured maximum 0, because
`parseInt("0") || 999` is 999. -/
theorem qtyIncrease_zero_max :
    parseInt (attrText (some "0")) = some 0 ∧
    qtyMax { value := "1", max := some "0" } = 999 ∧
    qtyIncrease { value := "1", max := some "0" } =
      { value := "2", max := some "0", changes := 1 } := by
  decide

theorem appendEach_eq (ps : URLSearchParams) (name : String) (values : List String) :
    appendEach ps name values = ps ++ values.map (fun v => (name, v)) := by
  unfold appendEach
  induction values generalizing ps with
  | nil => simp
  | cons v vs ih =>
    simp only [List.foldl_cons, List.map_cons]
    rw [ih]
    simp [URLSearchParams.append]

theorem appendIfTruthy_eq (ps : URLSearchParams) (name : String) (v : Option String) :
    appendIfTruthy ps name v = ps ++ truthyPair name v := by
  unfold appendIfTruthy truthyPair
  cases v with
  | none => simp
  | some x => by_cases h : x = "" <;> simp [h, URLSearchParams.append]

theorem filterParams_eq (filters : FilterForm) (keyword : Option String) :
    filterParams filters keyword =
      truthyPair "keyword" keyword ++ truthyPair "gender" filters.gender ++
      filters.category.map (fun v => ("category", v)) ++
      filters.size.map (fun v => ("size", v)) ++
      filters.color.map (fun v => ("color", v)) ++
      truthyPair "priceMin" filters.priceMin ++ truthyPair "priceMax" filters.priceMax ++
      truthyPair "sort" filters.sort := by
  simp [filterParams, appendIfTruthy_eq, appendEach_eq]

theorem filter_truthyPair (name key : String) (v : Option String) :
    (truthyPair name v).filter (fun nv => nv.1 = key) =
      if name = key then truthyPair name v else [] := by
  unfold truthyPair
  cases v with
  | none => simp
  | some x =>
    by_cases h : x = "" <;> by_cases h' : name = key <;> simp [h, h']

theorem filter_map_pair (name key : String) (vs : List String) :
    (vs.map (fun v => (name, v))).filter (fun nv => nv.1 = key) =
      if name = key then vs.map (fun v => (name, v)) else [] := by
  by_cases h' : name = key
  · simp [h', List.filter_eq_self]
  · simp [h', List.filter_eq_nil_iff]

theorem truthyPair_empty (name : String) (v : Option String) (h : v = none ∨ v = some "") :
    truthyPair name v = [] := by
  rcases h with rfl | rfl <;> simp [truthyPair]

theorem intercalate_go_eq (sep : String) (l : List String) :
    ∀ acc : String, ∃ rest : String, String.intercalate.go acc sep l = acc ++ rest := by
  induction l with
  | nil => intro acc; exact ⟨"", by simp [String.intercalate.go]⟩
  | cons a as ih =>
    intro acc
    obtain ⟨rest, hrest⟩ := ih (acc ++ sep ++ a)
    refine ⟨sep ++ a ++ rest, ?_⟩
    show String.intercalate.go (acc ++ sep ++ a) sep as = _
    rw [hrest]
    simp only [String.append_assoc]

theorem toString_cons (n v : String) (ps : URLSearchParams) :
    ∃ rest : String,
      URLSearchParams.toString ((n, v) :: ps) = formEncode n ++ "=" ++ formEncode v ++ rest := by
  unfold URLSearchParams.toString
  simp only [List.map_cons, String.intercalate]
  exact intercalate_go_eq _ _ _

/-- C6. When the current query has a non-empty `keyword` parameter `k`,
`applyFilters()` assigns to `window.location.href` the text `/products?`
followed by the serialized query; that query starts with `keyword=k`
(form-encoded), holds the pair keyword=k exactly once, holds one pair
category=c for each checked category in document order, and holds no pair
named gender, priceMin, priceMax or sort whose control has no or an empty
value. -/
theorem applyFilters_query (filters : FilterForm) (p : Page) (k : String)
    (hk : (URLSearchParams.ofString p.search).get "keyword" = some k) (hne : k ≠ "") :
    (applyFilters filters p).log =
      p.log ++ [Effect.setHref ("/products?" ++ (filterParams filters (some k)).toString)] ∧
    (∃ rest, "/products?" ++ (filterParams filters (some k)).toString =
      "/products?keyword=" ++ formEncode k ++ rest) ∧
    (filterParams filters (some k)).filter (fun nv => nv.1 = "keyword") = [("keyword", k)] ∧
    (filterParams filters (some k)).count ("keyword", k) = 1 ∧
    (filterParams filters (some k)).filter (fun nv => nv.1 = "category") =
      filters.category.map (fun c => ("category", c)) ∧
    ((filters.gender = none ∨ filters.gender = some "") →
      (filterParams filters (some k)).filter (fun nv => nv.1 = "gender") = []) ∧
    ((filters.priceMin = none ∨ filters.priceMin = some "") →
      (filterParams filters (some k)).filter (fun nv => nv.1 = "priceMin") = []) ∧
    ((filters.priceMax = none ∨ filters.priceMax = some "") →
      (filterParams filters (some k)).filter (fun nv => nv.1 = "priceMax") = []) ∧
    ((filters.sort = none ∨ filters.sort = some "") →
      (filterParams filters (some k)).filter (fun nv => nv.1 = "sort") = []) := by
  have hkw : truthyPair "keyword" (some k) = [("keyword", k)] := by simp [truthyPair, hne]
  have hfilter : ∀ key : String,
      (filterParams filters (some k)).filter (fun nv => nv.1 = key) =
        (if "keyword" = key then [("keyword", k)] else []) ++
        (if "gender" = key then truthyPair "gender" filters.gender else []) ++
        (if "category" = key then filters.category.map (fun v => ("category", v)) else []) ++
        (if "size" = key then filters.size.map (fun v => ("size", v)) else []) ++
        (if "color" = key then filters.color.map (fun v => ("color", v)) else []) ++
        (if "priceMin" = key then truthyPair "priceMin" filters.priceMin else []) ++
        (if "priceMax" = key then truthyPair "priceMax" filters.priceMax else []) ++
        (if "sort" = key then truthyPair "sort" filters.sort else []) := by
    intro key
    rw [filterParams_eq]
    simp only [List.filter_append, filter_truthyPair, filter_map_pair]
    rw [hkw]
  refine ⟨?_, ?_, ?_, ?_, ?_, ?_, ?_, ?_, ?_⟩
  · simp [applyFilters, Page.emit, hk]
  · have htail : ∃ tail, filterParams filters (some k) = ("keyword", k) :: tail := by
      rw [filterParams_eq, hkw]
      simp only [List.append_assoc, List.singleton_append]
      exact ⟨_, rfl⟩
    obtain ⟨tail, htail⟩ := htail
    obtain ⟨rest, hrest⟩ := toString_cons "keyword" k tail
    refine ⟨rest, ?_⟩
    rw [htail, hrest]
    have h1 : formEncode "keyword" = "keyword" := by decide
    rw [h1]
    simp only [String.append_assoc]
    rfl
  · rw [hfilter]; simp
  · have hcount : List.count ("keyword", k) (filterParams filters (some k)) =
        List.count ("keyword", k)
          ((filterParams filters (some k)).filter (fun nv => nv.1 = "keyword")) := by
      rw [List.count_filter]
      simp
    rw [hcount, hfilter]
    simp
  · rw [hfilter]; simp
  · intro h; rw [hfilter]; simp [truthyPair_empty _ _ h]
  · intro h; rw [hfilter]; simp [truthyPair_empty _ _ h]
  · intro h; rw [hfilter]; simp [truthyPair_empty _ _ h]
  · intro h; rw [hfilter]; simp [truthyPair_empty _ _ h]

/-- From `/products?keyword=shoe` with the category `Men` checked the target is
`/products?keyword=shoe&category=Men`. -/
theorem applyFilters_query_witness :
    (applyFilters { category := ["Men"] } { search := "?keyword=shoe" }).log =
      [Effect.setHref "/products?keyword=shoe&category=Men"] :=
  ((applyFilters_query { category := ["Men"] } { search := "?keyword=shoe" } "shoe"
      (by decide) (by decide)).1).trans (by decide)

/-- C7 as stated fails: `updateCartItem` answered with 401 shows the generic
error notification and registers no timer, and `removeVoucher` answered with
401 does nothing. -/
theorem updateCartItem_401_no_redirect :
    (Request.fail .updateCartItem 401 { pathname := "/cart" }).log =
      [Effect.toast ⟨"Có lỗi xảy ra, vui lòng thử lại!", "error", "bg-danger",
        "fa-exclamation-circle"⟩] ∧
    (Request.fail .updateCartItem 401 { pathname := "/cart" }).timers = [] ∧
    (Request.fail .removeVoucher 401 { pathname := "/cart" }).log = [] := by
  decide

/-- C7, amended. Of the mutating requests only `addToCart` and `toggleWishlist`
treat 401 as "not authenticated", registering after their notification a
1500 ms timer whose callback navigates to `/user/login?redirect=` followed by
the URI-encoded path of the page at that moment.  The error callbacks of `updateCartItem`,
`removeCartItem`, `removeFromWishlist`, `applyVoucher` and the newsletter
subscription ignore the status: for every status, 401 included, they show one
generic error notification and nothing else; `removeVoucher` has no error
callback and does nothing. -/
theorem error_callbacks_on_401 (p : Page) :
    (Request.fail .addToCart 401 p).log = p.log ++
      [Effect.toast ⟨"Vui lòng đăng nhập để thêm vào giỏ hàng", "warning", "bg-warning",
         "fa-exclamation-triangle"⟩,
       Effect.setTimeout Callback.loginRedirect 1500] ∧
    (Request.fail .toggleWishlist 401 p).log = p.log ++
      [Effect.toast ⟨"Vui lòng đăng nhập!", "warning", "bg-warning", "fa-exclamation-triangle"⟩,
       Effect.setTimeout Callback.loginRedirect 1500] ∧
    (∀ r status, r = Request.updateCartItem ∨ r = Request.removeCartItem ∨
        r = Request.removeFromWishlist ∨ r = Request.applyVoucher ∨
        r = Request.newsletterSubscribe →
      (Request.fail r status p).log = p.log ++
        [Effect.toast ⟨"Có lỗi xảy ra, vui lòng thử lại!", "error", "bg-danger",
          "fa-exclamation-circle"⟩]) ∧
    (∀ status, Request.fail .removeVoucher status p = p) ∧
    (∀ q : Page, (Callback.run .loginRedirect q).log =
      q.log ++ [Effect.setHref ("/user/login?redirect=" ++ encodeURIComponent q.pathname)]) := by
  refine ⟨?_, ?_, ?_, ?_, ?_⟩
  · simp [Request.fail, Request.errorCallback, addToCart_error, showNotification, Page.emit,
      bgClassOf, iconOf]
  · simp [Request.fail, Request.errorCallback, toggleWishlist_error, showNotification, Page.emit,
      bgClassOf, iconOf]
  · rintro r status (rfl | rfl | rfl | rfl | rfl) <;>
      simp [Request.fail, Request.errorCallback, updateCartItem_error, removeCartItem_error,
        removeFromWishlist_error, applyVoucher_error, newsletter_fail, showNotification,
        bgClassOf, iconOf]
  · intro status
    simp [Request.fail, Request.errorCallback]
  · intro q
    simp [Callback.run, Page.emit]

/-- The callbacks of `toggleWishlist` and `applyVoucher` at the page
`/products/5`. -/
theorem error_callbacks_on_401_witness :
    (Request.fail .toggleWishlist 401 { pathname := "/products/5" }).timers =
      [(Callback.loginRedirect, 1500)] ∧
    (Request.fail .applyVoucher 401 { pathname := "/products/5" }).log =
      [Effect.toast ⟨"Có lỗi xảy ra, vui lòng thử lại!", "error", "bg-danger",
        "fa-exclamation-circle"⟩] :=
  ⟨(congrArg (fun l => l.filterMap
        (fun e => match e with | Effect.setTimeout c d => some (c, d) | _ => none))
      (error_callbacks_on_401 { pathname := "/products/5" }).2.1).trans (by decide),
   ((error_callbacks_on_401 { pathname := "/products/5" }).2.2.1 .applyVoucher 401
      (Or.inr (Or.inr (Or.inr (Or.inl rfl))))).trans (by decide)⟩

/-- C8. When the request of `addToCart` fails with status 401 the error
callback shows one `warning` notification and then registers a 1500 ms timer,
and nothing else; when the timer fires, its callback assigns to
`window.location.href` the text `/user/login?redirect=` followed by the
URI-encoded current path.  For any other status the error callback shows one
`error` notification, registers no timer and navigates nowhere. -/
theorem addToCart_error_spec (productId : ProductId) (quantity : Int) (size color : Option String)
    (p : Page) (status : Nat) :
    (status = 401 →
      (Request.fail .addToCart status (addToCart productId quantity size color p)).log =
        (addToCart productId quantity size color p).log ++
        [Effect.toast ⟨"Vui lòng đăng nhập để thêm vào giỏ hàng", "warning", "bg-warning",
           "fa-exclamation-triangle"⟩,
         Effect.setTimeout Callback.loginRedirect 1500]) ∧
    (status ≠ 401 →
      (Request.fail .addToCart status (addToCart productId quantity size color p)).log =
        (addToCart productId quantity size color p).log ++
        [Effect.toast ⟨"Có lỗi xảy ra, vui lòng thử lại!", "error", "bg-danger",
           "fa-exclamation-circle"⟩] ∧
      (Request.fail .addToCart status (addToCart productId quantity size color p)).timers =
        p.timers ∧
      (Request.fail .addToCart status (addToCart productId quantity size color p)).navigations =
        p.navigations) ∧
    (∀ q : Page, (Callback.run .loginRedirect q).log =
      q.log ++ [Effect.setHref ("/user/login?redirect=" ++ encodeURIComponent q.pathname)]) := by
  refine ⟨?_, ?_, ?_⟩
  · rintro rfl
    simp [Request.fail, Request.errorCallback, addToCart_error, addToCart, showNotification,
      Page.emit, bgClassOf, iconOf]
  · intro h
    simp [Request.fail, Request.errorCallback, addToCart_error, addToCart, showNotification,
      Page.emit, bgClassOf, iconOf, h, Page.timers, Page.navigations, List.filterMap_append]
  · intro q
    simp [Callback.run, Page.emit]

/-- A failure with 401 and one with 500 on the page `/products/5`, and the
address the page goes to when the timer of the first fires. -/
theorem addToCart_error_spec_witness :
    (Request.fail .addToCart 401
        (addToCart (.num 5) 1 none none { pathname := "/products/5" })).log =
      [Effect.ajax .addToCart "/cart/api/add",
       Effect.toast ⟨"Vui lòng đăng nhập để thêm vào giỏ hàng", "warning", "bg-warning",
         "fa-exclamation-triangle"⟩,
       Effect.setTimeout Callback.loginRedirect 1500] ∧
    (Request.fail .addToCart 500
        (addToCart (.num 5) 1 none none { pathname := "/products/5" })).timers = [] ∧
    (Callback.run .loginRedirect { pathname := "/products/5" }).log =
      [Effect.setHref "/user/login?redirect=%2Fproducts%2F5"] :=
  ⟨((addToCart_error_spec (.num 5) 1 none none { pathname := "/products/5" } 401).1 rfl).trans
      (by decide),
   (((addToCart_error_spec (.num 5) 1 none none { pathname := "/products/5" } 500).2.1
      (by decide)).2.1).trans (by decide),
   ((addToCart_error_spec (.num 5) 1 none none { pathname := "/products/5" } 401).2.2
      { pathname := "/products/5" }).trans (by decide)⟩

end MainJs
